import Mathlib

set_option maxRecDepth 8000

/-!
Shallow embedding of the real-time chat synchronization core of the
`glimmer` repository (files `src/pages/Chats/ChatFeed.tsx` and
`src/pages/Group/RoomChat.tsx`), together with proofs about the
properties its specification states.

Strings are modelled by Lean `String`; points in time (`Date.now()`,
`createdAt`) by `Nat`.  The locale-dependent `formatTime12Hour` is kept
abstract as a parameter `fmt : Nat → String`.  JavaScript truthiness of
a string (`!s`) is modelled as the test `s = ""`, truthiness of the
socket handle as a `Bool`.
-/

namespace Glimmer

/-- Lexicographic comparison of character lists by code point, the
order JavaScript string comparison (`Array.prototype.sort` default on
strings already equal to their string conversion) induces on the
basic-multilingual-plane strings appearing here. -/
def charListLe : List Char → List Char → Bool
  | [], _ => true
  | _ :: _, [] => false
  | a :: as, b :: bs =>
    if a.toNat < b.toNat then true
    else if b.toNat < a.toNat then false
    else charListLe as bs

/-- JavaScript string order: `a <= b` on strings. -/
def jsStrLe (a b : String) : Bool := charListLe a.data b.data

/-- JavaScript `String.prototype.trim`: strip whitespace from both
ends. -/
def jsTrim (s : String) : String :=
  .mk (((s.data.dropWhile Char.isWhitespace).reverse.dropWhile
    Char.isWhitespace).reverse)

/-- The `Message` record of `ChatFeed.tsx` (lines 10–21). -/
structure Message where
  id : String
  chatId : String
  senderEmail : String
  senderUsername : String
  receiverEmail : String
  receiverUsername : String
  message : String
  time : String
  isOwn : Bool
  createdAt : Nat
  deriving Repr, DecidableEq

/-- The `RoomMessage` record of `RoomChat.tsx` (lines 12–22). -/
structure RoomMessage where
  id : String
  roomId : String
  room : String
  author : String
  message : String
  time : String
  isOwn : Bool
  isSystem : Bool
  createdAt : Nat
  deriving Repr, DecidableEq

/-- Payload of a `receive_private_message` event (the `data` argument of
`handleReceiveMessage` in `ChatFeed.tsx`). -/
structure PrivateMsgData where
  chatId : String
  senderEmail : String
  senderUsername : String
  receiverEmail : String
  receiverUsername : String
  message : String
  time : String
  deriving Repr, DecidableEq

/-- Payload of a `receive_room_message` event (the `data` argument of
`handleRoomMessage` in `RoomChat.tsx`). -/
structure RoomMsgData where
  roomId : String
  room : String
  author : String
  message : String
  time : String
  deriving Repr, DecidableEq

/-- From `ChatFeed.tsx` line 62: `[currentUserEmail, partnerEmail].sort().join("_")`.
JavaScript `Array.prototype.sort` on two strings orders them by string
comparison, so the result is the smaller string, `"_"`, the larger. -/
def chatId (currentUserEmail partnerEmail : String) : String :=
  if jsStrLe currentUserEmail partnerEmail then
    currentUserEmail ++ "_" ++ partnerEmail
  else
    partnerEmail ++ "_" ++ currentUserEmail

/-- The handler `handleReceiveMessage` (`ChatFeed.tsx` lines 123–152): an incoming
event is dropped when some in-memory message agrees with it on
`(message, senderEmail, time)`; otherwise a new `Message` is appended. -/
def handleReceiveMessage (currentUserEmail : String) (now : Nat)
    (fmt : Nat → String) (data : PrivateMsgData)
    (prevMessages : List Message) : List Message :=
  let messageExists := prevMessages.any fun msg =>
    msg.message == data.message && msg.senderEmail == data.senderEmail &&
      msg.time == data.time
  if messageExists then
    prevMessages
  else
    prevMessages ++ [{
      id := toString now
      chatId := data.chatId
      senderEmail := data.senderEmail
      senderUsername := data.senderUsername
      receiverEmail := data.receiverEmail
      receiverUsername := data.receiverUsername
      message := data.message
      time := if data.time = "" then fmt now else data.time
      isOwn := data.senderEmail == currentUserEmail
      createdAt := now }]

/-- The `RoomMessage` built by `handleRoomMessage` (`RoomChat.tsx`
lines 79–92) from an inbound event. -/
def mkRoomMessage (username : String) (now : Nat)
    (data : RoomMsgData) : RoomMessage :=
  { id := toString now
    roomId := data.roomId
    room := data.room
    author := data.author
    message := data.message
    time := data.time
    isOwn := data.author == username
    isSystem := false
    createdAt := now }

/-- The handler `handleRoomMessage` (`RoomChat.tsx` lines 79–92): appends the new
message unconditionally — there is no duplicate check in the room path. -/
def handleRoomMessage (username : String) (now : Nat)
    (data : RoomMsgData) (prev : List RoomMessage) : List RoomMessage :=
  prev ++ [mkRoomMessage username now data]

/-- The handler `handleUsersUpdate` (`RoomChat.tsx` lines 111–113):
`setOnlineUsers(users)` — the previous set is discarded wholesale. -/
def handleUsersUpdate (users : List String)
    (_prevOnlineUsers : List String) : List String :=
  users

/-- Payload of a `joining_message`/`leave_message` system event
(`RoomChat.tsx` lines 95–108). -/
structure SystemMsgData where
  message : String
  time : String
  deriving Repr, DecidableEq

/-- The handler `handleSystemMessage` (`RoomChat.tsx` lines 95–108): appends a
system `RoomMessage` (the code sets no `isOwn`, i.e. it is falsy). -/
def handleSystemMessage (id roomName : String) (now : Nat)
    (data : SystemMsgData) (prev : List RoomMessage) : List RoomMessage :=
  prev ++ [{
    id := toString now
    roomId := id
    room := roomName
    author := "System"
    message := data.message
    time := data.time
    isOwn := false
    isSystem := true
    createdAt := now }]

/-- An entry of the historical private-message fetch, as read by the
`initialMessages` effect of `ChatFeed.tsx` (lines 73–91).  The `_id`
field is called `mid` here. -/
structure RawPrivateMsg where
  mid : String
  chatId : String
  senderEmail : String
  senderUsername : String
  receiverEmail : String
  receiverUsername : String
  message : String
  time : String
  createdAt : Nat
  deriving Repr, DecidableEq

/-- The normalization of `ChatFeed.tsx` lines 75–88: each fetched entry
is mapped into the `Message` shape, in fetch order (`msg.time ||
formatTime12Hour(new Date(msg.createdAt))` is the empty-string
fallback). -/
def transformInitialMessages (currentUserEmail : String)
    (fmt : Nat → String) (initialMessages : List RawPrivateMsg) :
    List Message :=
  initialMessages.map fun msg =>
    { id := msg.mid
      chatId := msg.chatId
      senderEmail := msg.senderEmail
      senderUsername := msg.senderUsername
      receiverEmail := msg.receiverEmail
      receiverUsername := msg.receiverUsername
      message := msg.message
      time := if msg.time = "" then fmt msg.createdAt else msg.time
      isOwn := msg.senderEmail == currentUserEmail
      createdAt := msg.createdAt }

/-- The `initialMessages` effect of `ChatFeed.tsx` (lines 73–91):
`if (initialMessages && initialMessages.length > 0)` replace the state
with the transformed list, else leave the state alone.  An absent
(`undefined`) fetch result is modelled as `[]`. -/
def chatInitialEffect (currentUserEmail : String) (fmt : Nat → String)
    (initialMessages : List RawPrivateMsg) (messages : List Message) :
    List Message :=
  if initialMessages.length > 0 then
    transformInitialMessages currentUserEmail fmt initialMessages
  else
    messages

/-- An entry of the historical room-message fetch, as read by the
`initialMessages` effect of `RoomChat.tsx` (lines 143–171). -/
structure RawRoomMsg where
  mid : String
  roomId : String
  room : String
  author : String
  message : String
  time : String
  createdAt : Nat
  deriving Repr, DecidableEq

/-- The normalization of `RoomChat.tsx` lines 145–155, with the code's
`||` fallbacks modelled as empty-string tests. -/
def formatRoomInitial (id roomName username : String) (now : Nat)
    (fmt : Nat → String) (initialMessages : List RawRoomMsg) :
    List RoomMessage :=
  initialMessages.map fun msg =>
    { id := if msg.mid = "" then toString now else msg.mid
      roomId := if msg.roomId = "" then id else msg.roomId
      room := if msg.room = "" then roomName else msg.room
      author := if msg.author = "" then "Unknown" else msg.author
      message := msg.message
      time := if msg.time = "" then fmt msg.createdAt else msg.time
      isOwn := msg.author == username
      isSystem := msg.author == "System"
      createdAt := msg.createdAt }

/-- The welcome message built by `RoomChat.tsx` lines 159–168 when the
fetch yields no messages. -/
def welcomeMessage (id roomName : String) (now : Nat)
    (fmt : Nat → String) : RoomMessage :=
  { id := toString now
    roomId := id
    room := roomName
    author := "System"
    message := "🚀 Welcome to the " ++ roomName ++ " classroom"
    time := fmt now
    isOwn := false
    isSystem := true
    createdAt := now }

/-- The `initialMessages` effect of `RoomChat.tsx` (lines 143–171):
non-empty fetch → formatted list; otherwise → the single welcome
message.  Both branches overwrite the previous state. -/
def roomInitialEffect (id roomName username : String) (now : Nat)
    (fmt : Nat → String) (initialMessages : List RawRoomMsg)
    (_messages : List RoomMessage) : List RoomMessage :=
  if initialMessages.length > 0 then
    formatRoomInitial id roomName username now fmt initialMessages
  else
    [welcomeMessage id roomName now fmt]

/-- Folding the direct-chat live handler over a list of inbound events
in arrival order. -/
def runDirectEvents (currentUserEmail : String) (now : Nat)
    (fmt : Nat → String) (events : List PrivateMsgData)
    (messages : List Message) : List Message :=
  events.foldl
    (fun acc data => handleReceiveMessage currentUserEmail now fmt data acc)
    messages

/-- The dedup test of `handleReceiveMessage` (`ChatFeed.tsx` lines
126–131) in isolation: some in-memory message agrees with the event on
`(message, senderEmail, time)`. -/
def dedupMatch (data : PrivateMsgData) (msgs : List Message) : Bool :=
  msgs.any fun msg =>
    msg.message == data.message && msg.senderEmail == data.senderEmail &&
      msg.time == data.time

/-- The `Message` built by `handleReceiveMessage` (`ChatFeed.tsx` lines
137–148) for a surviving event. -/
def mkPrivateMessage (currentUserEmail : String) (now : Nat)
    (fmt : Nat → String) (data : PrivateMsgData) : Message :=
  { id := toString now
    chatId := data.chatId
    senderEmail := data.senderEmail
    senderUsername := data.senderUsername
    receiverEmail := data.receiverEmail
    receiverUsername := data.receiverUsername
    message := data.message
    time := if data.time = "" then fmt now else data.time
    isOwn := data.senderEmail == currentUserEmail
    createdAt := now }

/-- The live tail of the direct view: the messages built from exactly
those events that found no dedup match at their delivery time, in
arrival order (an event that matches the list as it stands when it
arrives is dropped; a survivor is appended and can itself absorb later
duplicates). -/
def directSurvivorsTail (currentUserEmail : String) (now : Nat)
    (fmt : Nat → String) :
    List PrivateMsgData → List Message → List Message
  | [], _ => []
  | d :: ds, cur =>
    if dedupMatch d cur then
      directSurvivorsTail currentUserEmail now fmt ds cur
    else
      mkPrivateMessage currentUserEmail now fmt d ::
        directSurvivorsTail currentUserEmail now fmt ds
          (cur ++ [mkPrivateMessage currentUserEmail now fmt d])

/-- Folding the room live handler over a list of inbound events in
arrival order. -/
def runRoomEvents (username : String) (now : Nat)
    (events : List RoomMsgData) (messages : List RoomMessage) :
    List RoomMessage :=
  events.foldl (fun acc data => handleRoomMessage username now data acc)
    messages

/-- Insertion step of an ascending-by-`createdAt` insertion sort. -/
def insertByCreatedAt (m : Message) : List Message → List Message
  | [] => [m]
  | x :: xs =>
    if m.createdAt ≤ x.createdAt then m :: x :: xs
    else x :: insertByCreatedAt m xs

/-- Ascending-by-`createdAt` insertion sort on messages. -/
def sortByCreatedAt (l : List Message) : List Message :=
  l.foldr insertByCreatedAt []

/-- Modelled from the spec (§4.3): the initial sequence as the spec
words it — normalize each fetched entry, then *sort ascending by
`createdAt`*.  Used to compare the spec's wording with
`transformInitialMessages`, which the component actually runs. -/
def specInitialSequence (currentUserEmail : String) (fmt : Nat → String)
    (initialMessages : List RawPrivateMsg) : List Message :=
  sortByCreatedAt
    (transformInitialMessages currentUserEmail fmt initialMessages)

/-- Payload of the direct `send_private_message` event
(`ChatFeed.tsx` lines 205–213). -/
structure DirectSendData where
  chatId : String
  senderEmail : String
  senderUsername : String
  receiverEmail : String
  receiverUsername : String
  message : String
  time : String
  deriving Repr, DecidableEq

/-- The handler `handleOnSubmit` (`ChatFeed.tsx` lines 202–233): guarded by
`currentMessage.trim() !== "" && socket && chatId`; on success emits
the payload (untrimmed body) and clears the input; otherwise nothing is
emitted and the input is untouched.  Returns (emitted event, new input
state). -/
def handleOnSubmit (sock : Bool)
    (cid partnerEmail partnerUsername currentUserEmail currentUsername :
      String)
    (fmt : Nat → String) (now : Nat) (currentMessage : String) :
    Option DirectSendData × String :=
  if jsTrim currentMessage ≠ "" ∧ sock = true ∧ cid ≠ "" then
    (some { chatId := cid
            senderEmail := currentUserEmail
            senderUsername := currentUsername
            receiverEmail := partnerEmail
            receiverUsername := partnerUsername
            message := currentMessage
            time := fmt now }, "")
  else
    (none, currentMessage)

/-- Payload of the room `send_room_message` event
(`RoomChat.tsx` lines 177–183). -/
structure RoomSendData where
  roomId : String
  room : String
  author : String
  message : String
  time : String
  deriving Repr, DecidableEq

/-- The handler `handleSendMessage` (`RoomChat.tsx` lines 173–189): guarded by
`message.trim() && socket && id`; on success emits the payload with the
*trimmed* body and clears the input.  No length check appears in this
path. -/
def handleSendMessage (sock : Bool) (id roomName username : String)
    (fmt : Nat → String) (now : Nat) (message : String) :
    Option RoomSendData × String :=
  if jsTrim message ≠ "" ∧ sock = true ∧ id ≠ "" then
    (some { roomId := id
            room := roomName
            author := username
            message := jsTrim message
            time := fmt now }, "")
  else
    (none, message)

/-- The direct-chat textarea `onChange` (`ChatFeed.tsx` lines 540–545):
the new value is accepted only when its length is at most 500. -/
def chatComposerChange (value currentMessage : String) : String :=
  if value.length ≤ 500 then value else currentMessage

/-- The room input `onChange` (`RoomChat.tsx` line 423):
`setMessage(e.target.value)` — no length cap. -/
def roomComposerChange (value _message : String) : String :=
  value

/-! ### Typing debounce timer (`ChatFeed.tsx` lines 176–200)

`typingTimeout` holds the deadline (arm time + 1000) of the armed
`setTimeout`; `stopsEmitted` counts `typing_stop` emissions fired by
timer expiry. -/

/-- State of the self-side typing debounce. -/
structure TypingTimerState where
  typingTimeout : Option Nat
  stopsEmitted : Nat
  deriving Repr, DecidableEq

/-- Timer expiry: at time `t`, an armed timer whose deadline has passed
fires, emitting one `typing_stop`. -/
def fireIfDue (t : Nat) (s : TypingTimerState) : TypingTimerState :=
  match s.typingTimeout with
  | some deadline =>
    if deadline ≤ t then
      { typingTimeout := none, stopsEmitted := s.stopsEmitted + 1 }
    else s
  | none => s

/-- The handler `handleTyping` at time `t`: emit `typing_start` (not tracked here),
`clearTimeout` any armed timer, and arm a fresh 1000-unit timer
(`ChatFeed.tsx` lines 184–198). -/
def handleTyping (t : Nat) (s : TypingTimerState) : TypingTimerState :=
  { s with typingTimeout := some (t + 1000) }

/-- After the last keystroke the armed timer (if any) eventually
expires and emits its stop event. -/
def settleTyping (s : TypingTimerState) : TypingTimerState :=
  match s.typingTimeout with
  | some _ => { typingTimeout := none, stopsEmitted := s.stopsEmitted + 1 }
  | none => s

/-- Processing a list of keystroke times in order: before each
keystroke any due timer fires, then `handleTyping` runs; at the end the
surviving timer fires. -/
def runTyping (s : TypingTimerState) : List Nat → TypingTimerState
  | [] => settleTyping s
  | t :: ts => runTyping (handleTyping t (fireIfDue t s)) ts

/-- A burst starting after a keystroke at time `t`: the times are
nondecreasing and each arrives strictly less than 1000 units after the
previous one. -/
def tightBurst : Nat → List Nat → Bool
  | _, [] => true
  | t, u :: rest => (decide (t ≤ u) && decide (u < t + 1000)) && tightBurst u rest

/-! ### Connection lifecycle and teardown -/

/-- A transport connection as the component sees it: the event names
with a registered listener, and whether the transport is alive. -/
structure Conn where
  listeners : List String
  connected : Bool
  deriving Repr, DecidableEq

/-- The listeners `ChatFeed.tsx` registers during its socket effect:
`connect` (line 109) and `disconnect` (line 117) on the new socket, and
the two channel data listeners (lines 161–162). -/
def directListeners : List String :=
  ["connect", "disconnect", "receive_private_message", "user_typing"]

/-- The listeners `RoomChat.tsx` registers during its socket effect:
`connect` (line 66) and `disconnect` (line 73), and the four channel
data listeners (lines 115–118). -/
def roomListeners : List String :=
  ["connect", "disconnect", "receive_room_message", "joining_message",
    "leave_message", "room_users_update"]

/-- The connection after the direct-chat socket effect ran. -/
def openDirectConn : Conn :=
  { listeners := directListeners, connected := true }

/-- The connection after the room socket effect ran. -/
def openRoomConn : Conn :=
  { listeners := roomListeners, connected := true }

/-- The call `socket.off(name, handler)`: removes the handler registered under
`name` (each name was registered exactly once). -/
def offListener (name : String) (c : Conn) : Conn :=
  { c with listeners := c.listeners.filter (fun n => n ≠ name) }

/-- An outbound lifecycle event. -/
inductive OutEvent where
  | leavePrivateChat (chatId currentUserEmail : String)
  | leaveRoom (id username : String)
  deriving Repr, DecidableEq

/-- The direct-chat effect cleanup (`ChatFeed.tsx` lines 165–172):
`off` the two channel data listeners (lines 166–167), emit
`leave_private_chat (chatId, email)` when `chatId` is truthy,
`disconnect()`.  The `connect` and `disconnect` handlers registered at
lines 109 and 117 are never `off`'d.  Returns the closed connection and
the emitted events. -/
def cleanupDirect (cid currentUserEmail : String) (c : Conn) :
    Conn × List OutEvent :=
  let c := offListener "user_typing"
    (offListener "receive_private_message" c)
  ({ c with connected := false },
    if cid = "" then []
    else [OutEvent.leavePrivateChat cid currentUserEmail])

/-- The room effect cleanup (`RoomChat.tsx` lines 121–130): `off` the
four channel data listeners; the `connect` and `disconnect` handlers
registered at lines 66 and 73 are never `off`'d. -/
def cleanupRoom (id username : String) (c : Conn) :
    Conn × List OutEvent :=
  let c := offListener "room_users_update"
    (offListener "leave_message"
      (offListener "joining_message"
        (offListener "receive_room_message" c)))
  ({ c with connected := false },
    if id = "" then [] else [OutEvent.leaveRoom id username])

/-- Payload of a `user_typing` event (`ChatFeed.tsx` lines 155–159). -/
structure TypingEventData where
  chatId : String
  userEmail : String
  username : String
  isTyping : Bool
  deriving Repr, DecidableEq

/-- The handler `handleUserTyping` (`ChatFeed.tsx` lines 155–159): remote typing
events not echoing the local identity set the indicator. -/
def handleUserTyping (currentUserEmail : String) (data : TypingEventData)
    (isTyping : Bool) : Bool :=
  if data.userEmail ≠ currentUserEmail then data.isTyping else isTyping

/-- The direct-chat component state the inbound listeners mutate. -/
structure ChatState where
  messages : List Message
  isTyping : Bool
  deriving Repr, DecidableEq

/-- An inbound event on a direct channel. -/
inductive DirectInbound where
  | privateMsg (data : PrivateMsgData)
  | typing (data : TypingEventData)
  deriving Repr, DecidableEq

/-- The transport event name an inbound direct event arrives under. -/
def directEventName : DirectInbound → String
  | .privateMsg _ => "receive_private_message"
  | .typing _ => "user_typing"

/-- Delivery of an inbound direct event: the registered listener (if
any) runs and mutates the component state. -/
def deliverDirect (currentUserEmail : String) (now : Nat)
    (fmt : Nat → String) (c : Conn) (ev : DirectInbound)
    (st : ChatState) : ChatState :=
  if c.listeners.contains (directEventName ev) then
    match ev with
    | .privateMsg data =>
      { st with messages :=
          handleReceiveMessage currentUserEmail now fmt data st.messages }
    | .typing data =>
      { st with isTyping :=
          handleUserTyping currentUserEmail data st.isTyping }
  else st

/-- The room component state the inbound listeners mutate. -/
structure RoomState where
  messages : List RoomMessage
  onlineUsers : List String
  deriving Repr, DecidableEq

/-- An inbound event on a room channel. -/
inductive RoomInbound where
  | roomMsg (data : RoomMsgData)
  | joinNotice (data : SystemMsgData)
  | leaveNotice (data : SystemMsgData)
  | usersUpdate (users : List String)
  deriving Repr, DecidableEq

/-- The transport event name an inbound room event arrives under. -/
def roomEventName : RoomInbound → String
  | .roomMsg _ => "receive_room_message"
  | .joinNotice _ => "joining_message"
  | .leaveNotice _ => "leave_message"
  | .usersUpdate _ => "room_users_update"

/-- Delivery of an inbound room event. -/
def deliverRoom (id roomName username : String) (now : Nat)
    (c : Conn) (ev : RoomInbound) (st : RoomState) : RoomState :=
  if c.listeners.contains (roomEventName ev) then
    match ev with
    | .roomMsg data =>
      { st with messages := handleRoomMessage username now data st.messages }
    | .joinNotice data =>
      { st with messages :=
          handleSystemMessage id roomName now data st.messages }
    | .leaveNotice data =>
      { st with messages :=
          handleSystemMessage id roomName now data st.messages }
    | .usersUpdate users =>
      { st with onlineUsers := handleUsersUpdate users st.onlineUsers }
  else st

/-! ### View guards (`ChatFeed.tsx`) -/

/-- The value `partnerEmail` when no navigation state is present
(`ChatFeed.tsx` line 46): `id || ""` with `id` the URL parameter. -/
def partnerEmailFromParam : Option String → String
  | none => ""
  | some s => s

/-- The part of `s` before the first `"@"` — JavaScript
`s.split("@")[0]`. -/
def firstBeforeAt (s : String) : String :=
  .mk (s.data.takeWhile (fun c => c ≠ '@'))

/-- The value `partnerUsername` when no navigation state is present
(`ChatFeed.tsx` line 47): `id?.split("@")[0] || "Unknown User"`. -/
def partnerUsernameFromParam : Option String → String
  | none => "Unknown User"
  | some s =>
    if firstBeforeAt s = "" then "Unknown User" else firstBeforeAt s

/-- The direct-chat socket effect guard (`ChatFeed.tsx` line 104):
`if (!chatId || !currentUserEmail || !isAuthenticated) return;` — the
effect opens a connection exactly when this is `true`. -/
def chatSocketEffectOpens (cid currentUserEmail : String)
    (isAuthenticated : Bool) : Bool :=
  decide (cid ≠ "") && decide (currentUserEmail ≠ "") && isAuthenticated

/-- The render guard of `ChatFeed.tsx` line 274:
`if (!partnerEmail || !partnerUsername)` → the "No chat selected"
screen (with no message form) is shown. -/
def chatRendersNoChatSelected (partnerEmail partnerUsername : String) :
    Bool :=
  decide (partnerEmail = "") || decide (partnerUsername = "")

/-- The fetched entries are ascending by `createdAt` (the contract the
spec gives the external history fetch). -/
def ascByCreatedAtRaw : List RawPrivateMsg → Bool
  | [] => true
  | [_] => true
  | a :: b :: rest =>
    decide (a.createdAt ≤ b.createdAt) && ascByCreatedAtRaw (b :: rest)

/-- A message list is ascending by `createdAt`. -/
def ascByCreatedAt : List Message → Bool
  | [] => true
  | [_] => true
  | a :: b :: rest =>
    decide (a.createdAt ≤ b.createdAt) && ascByCreatedAt (b :: rest)

/-! ### Concrete fixtures used by witnesses and counterexamples -/

/-- A concrete stand-in for the locale-dependent time formatter. -/
def sampleFmt : Nat → String := fun n => toString n

/-- A live message that reached the state before the snapshot
resolved. -/
def liveMsg0 : Message :=
  { id := "0", chatId := "c", senderEmail := "x@x", senderUsername := "x",
    receiverEmail := "y@y", receiverUsername := "y", message := "live",
    time := "t0", isOwn := false, createdAt := 9 }

/-- A fetched private entry with `createdAt` 1. -/
def rawP1 : RawPrivateMsg :=
  { mid := "1", chatId := "c", senderEmail := "a@x", senderUsername := "a",
    receiverEmail := "b@x", receiverUsername := "b", message := "first",
    time := "t1", createdAt := 1 }

/-- A fetched private entry with `createdAt` 2. -/
def rawP2 : RawPrivateMsg :=
  { mid := "2", chatId := "c", senderEmail := "b@x", senderUsername := "b",
    receiverEmail := "a@x", receiverUsername := "a", message := "second",
    time := "t2", createdAt := 2 }

/-- A fetched room entry. -/
def rawR1 : RawRoomMsg :=
  { mid := "1", roomId := "r", room := "R", author := "al",
    message := "hello", time := "t1", createdAt := 1 }

/-- An in-memory room message. -/
def roomMsg0 : RoomMessage :=
  { id := "1", roomId := "r", room := "R", author := "al", message := "hi",
    time := "1:00 PM", isOwn := false, isSystem := false, createdAt := 0 }

/-- An inbound room event agreeing with `roomMsg0` on
`(message, author, time)`. -/
def roomData0 : RoomMsgData :=
  { roomId := "r", room := "R", author := "al", message := "hi",
    time := "1:00 PM" }

/-- An in-memory direct message. -/
def privMsg0 : Message :=
  { id := "1", chatId := "a@x_b@x", senderEmail := "b@x",
    senderUsername := "b", receiverEmail := "a@x", receiverUsername := "a",
    message := "hi", time := "1:00 PM", isOwn := false, createdAt := 0 }

/-- An inbound direct event agreeing with `privMsg0` on
`(message, senderEmail, time)`. -/
def privData0 : PrivateMsgData :=
  { chatId := "a@x_b@x", senderEmail := "b@x", senderUsername := "b",
    receiverEmail := "a@x", receiverUsername := "a", message := "hi",
    time := "1:00 PM" }

/-- A 501-character input text. -/
def longText : String := .mk (List.replicate 501 'a')

/-! ## Helper lemmas -/

theorem charListLe_total :
    ∀ as bs, charListLe as bs = true ∨ charListLe bs as = true
  | [], _ => by left; rfl
  | _ :: _, [] => by right; rfl
  | a :: as, b :: bs => by
    rcases Nat.lt_trichotomy a.toNat b.toNat with h | h | h
    · left; simp [charListLe, h]
    · rcases charListLe_total as bs with ih | ih
      · left; simp [charListLe, h, ih]
      · right; simp [charListLe, h.symm, ih]
    · right; simp [charListLe, h, Nat.lt_asymm h]

theorem char_toNat_inj {a b : Char} (h : a.toNat = b.toNat) : a = b := by
  cases a; cases b
  simp only [Char.toNat] at h
  congr 1
  exact UInt32.ext h

theorem charListLe_antisymm :
    ∀ as bs, charListLe as bs = true → charListLe bs as = true → as = bs
  | [], [], _, _ => rfl
  | [], _ :: _, _, h2 => by simp [charListLe] at h2
  | _ :: _, [], h1, _ => by simp [charListLe] at h1
  | a :: as, b :: bs, h1, h2 => by
    rcases Nat.lt_trichotomy a.toNat b.toNat with h | h | h
    · simp [charListLe, h, Nat.lt_asymm h] at h2
    · have ha : a = b := char_toNat_inj h
      subst ha
      simp only [charListLe, lt_irrefl, if_false] at h1 h2
      rw [charListLe_antisymm as bs h1 h2]
    · simp [charListLe, h, Nat.lt_asymm h] at h1

theorem jsStrLe_total (a b : String) :
    jsStrLe a b = true ∨ jsStrLe b a = true :=
  charListLe_total a.data b.data

theorem jsStrLe_antisymm {a b : String} (h1 : jsStrLe a b = true)
    (h2 : jsStrLe b a = true) : a = b := by
  cases a; cases b
  congr 1
  exact charListLe_antisymm _ _ h1 h2

/-! ## Claims -/

/-- C3: the direct-channel identifier is derived by sorting the two
participant identities and joining with `"_"`, hence symmetric in its
arguments; participants `"a@x"` and `"b@x"` both obtain
`"a@x_b@x"`. -/
theorem c3_chatId_symmetric :
    (∀ a b, chatId a b = chatId b a) ∧
      chatId "a@x" "b@x" = "a@x_b@x" ∧ chatId "b@x" "a@x" = "a@x_b@x" := by
  refine ⟨fun a b => ?_, by decide, by decide⟩
  unfold chatId
  cases h1 : jsStrLe a b <;> cases h2 : jsStrLe b a <;> simp
  · rcases jsStrLe_total a b with h | h
    · rw [h] at h1; cases h1
    · rw [h] at h2; cases h2
  · rw [jsStrLe_antisymm h1 h2]

/-- C8: the presence tracker replaces its entire membership set with
each broadcast payload; in particular `["a","b"]` then `["a"]` leaves
exactly `["a"]`. -/
theorem c8_presence_wholesale :
    (∀ users prev, handleUsersUpdate users prev = users) ∧
      handleUsersUpdate ["a"] (handleUsersUpdate ["a", "b"] []) = ["a"] :=
  ⟨fun _ _ => rfl, rfl⟩

/-- C10: when the room fetch yields no messages the sequence is
initialized to the single system welcome message naming the room, and
the room sequence is never empty once the effect has run. -/
theorem c10_room_welcome :
    (∀ id roomName username now fmt prev,
        roomInitialEffect id roomName username now fmt [] prev =
          [welcomeMessage id roomName now fmt] ∧
        (welcomeMessage id roomName now fmt).message =
          "🚀 Welcome to the " ++ roomName ++ " classroom" ∧
        (welcomeMessage id roomName now fmt).author = "System" ∧
        (welcomeMessage id roomName now fmt).isSystem = true) ∧
      ∀ id roomName username now fmt initial prev,
        roomInitialEffect id roomName username now fmt initial prev ≠ [] := by
  constructor
  · intro id roomName username now fmt prev
    exact ⟨rfl, rfl, rfl, rfl⟩
  · intro id roomName username now fmt initial prev
    cases initial <;> simp [roomInitialEffect, formatRoomInitial]

/-- C9: whenever the historical snapshot resolves non-empty, the state
is set to exactly the normalized snapshot, independent of its prior
contents, in both views. -/
theorem c9_snapshot_overwrites :
    (∀ currentUserEmail fmt initial prev, initial ≠ [] →
        chatInitialEffect currentUserEmail fmt initial prev =
          transformInitialMessages currentUserEmail fmt initial) ∧
      ∀ id roomName username now fmt initial prev, initial ≠ [] →
        roomInitialEffect id roomName username now fmt initial prev =
          formatRoomInitial id roomName username now fmt initial := by
  constructor
  · intro u fmt initial prev h
    simp [chatInitialEffect, List.length_pos.mpr h]
  · intro id roomName username now fmt initial prev h
    simp [roomInitialEffect, List.length_pos.mpr h]

/-- Witness for C9: a snapshot of one entry replaces a state already
holding a live message. -/
theorem c9_snapshot_overwrites_witness :
    chatInitialEffect "a@x" sampleFmt [rawP1] [liveMsg0] =
      transformInitialMessages "a@x" sampleFmt [rawP1] ∧
      roomInitialEffect "r" "R" "u" 0 sampleFmt [rawR1] [roomMsg0] =
        formatRoomInitial "r" "R" "u" 0 sampleFmt [rawR1] :=
  ⟨c9_snapshot_overwrites.1 "a@x" sampleFmt [rawP1] [liveMsg0]
      (List.cons_ne_nil _ _),
    c9_snapshot_overwrites.2 "r" "R" "u" 0 sampleFmt [rawR1] [roomMsg0]
      (List.cons_ne_nil _ _)⟩

/-- Counterexample to C1 as stated: the room handler appends an event
whose `(message, author, time)` triple already occurs in the list — the
length grows, so the dedup discard does not hold in the room path. -/
theorem c1_room_redelivery_grows :
    roomMsg0.message = roomData0.message ∧
      roomMsg0.author = roomData0.author ∧
      roomMsg0.time = roomData0.time ∧
      (handleRoomMessage "u" 5 roomData0 [roomMsg0]).length ≠
        ([roomMsg0] : List RoomMessage).length := by
  refine ⟨rfl, rfl, rfl, ?_⟩
  decide

/-- C1 amended: the direct-chat handler discards an inbound event whose
`(message, senderEmail, time)` triple already occurs in the list,
leaving the list unchanged; the room handler performs no deduplication
and always appends, growing the list by one. -/
theorem c1_dedup_direct_only :
    (∀ currentUserEmail now fmt data prev,
        (∃ m ∈ prev, m.message = data.message ∧
            m.senderEmail = data.senderEmail ∧ m.time = data.time) →
        handleReceiveMessage currentUserEmail now fmt data prev = prev) ∧
      ∀ username now data prev,
        (handleRoomMessage username now data prev).length =
          prev.length + 1 := by
  constructor
  · intro u now fmt data prev h
    have hex : (prev.any fun msg =>
        msg.message == data.message && msg.senderEmail == data.senderEmail &&
          msg.time == data.time) = true := by
      rw [List.any_eq_true]
      obtain ⟨m, hm, h1, h2, h3⟩ := h
      exact ⟨m, hm, by simp [h1, h2, h3]⟩
    simp only [handleReceiveMessage, hex, if_true]
  · intro username now data prev
    simp [handleRoomMessage]

/-- Witness for C1 amended: redelivering a matching direct event leaves
the one-element list unchanged; the matching room event still grows the
list. -/
theorem c1_dedup_direct_only_witness :
    handleReceiveMessage "a@x" 7 sampleFmt privData0 [privMsg0] =
        [privMsg0] ∧
      (handleRoomMessage "u" 5 roomData0 [roomMsg0]).length = 1 + 1 :=
  ⟨c1_dedup_direct_only.1 "a@x" 7 sampleFmt privData0 [privMsg0]
      ⟨privMsg0, by simp, rfl, rfl, rfl⟩,
    c1_dedup_direct_only.2 "u" 5 roomData0 [roomMsg0]⟩

theorem transform_asc (u : String) (fmt : Nat → String) :
    ∀ l, ascByCreatedAtRaw l = true →
      ascByCreatedAt (transformInitialMessages u fmt l) = true
  | [], _ => rfl
  | [_], _ => rfl
  | a :: b :: rest, h => by
    rw [ascByCreatedAtRaw, Bool.and_eq_true] at h
    have ih := transform_asc u fmt (b :: rest) h.2
    simp only [transformInitialMessages, List.map_cons] at ih ⊢
    rw [ascByCreatedAt, Bool.and_eq_true]
    exact ⟨h.1, ih⟩

theorem handleReceiveMessage_extends (u : String) (now : Nat)
    (fmt : Nat → String) (data : PrivateMsgData) (prev : List Message) :
    ∃ t, handleReceiveMessage u now fmt data prev = prev ++ t := by
  simp only [handleReceiveMessage]
  split
  · exact ⟨[], (List.append_nil prev).symm⟩
  · exact ⟨_, rfl⟩

theorem runDirectEvents_extends (u : String) (now : Nat)
    (fmt : Nat → String) :
    ∀ events snapshot, ∃ t,
      runDirectEvents u now fmt events snapshot = snapshot ++ t
  | [], snapshot => ⟨[], (List.append_nil snapshot).symm⟩
  | e :: events, snapshot => by
    obtain ⟨t1, h1⟩ := handleReceiveMessage_extends u now fmt e snapshot
    obtain ⟨t2, h2⟩ :=
      runDirectEvents_extends u now fmt events (snapshot ++ t1)
    refine ⟨t1 ++ t2, ?_⟩
    simp only [runDirectEvents, List.foldl_cons] at h2 ⊢
    rw [h1, h2, List.append_assoc]

theorem runRoomEvents_eq (username : String) (now : Nat) :
    ∀ events messages,
      runRoomEvents username now events messages =
        messages ++ events.map (mkRoomMessage username now)
  | [], messages => by simp [runRoomEvents]
  | e :: events, messages => by
    have ih := runRoomEvents_eq username now events
      (messages ++ [mkRoomMessage username now e])
    simp only [runRoomEvents, List.foldl_cons, handleRoomMessage] at ih ⊢
    rw [ih, List.append_assoc, List.map_cons, List.singleton_append]

theorem handleReceiveMessage_eq (u : String) (now : Nat)
    (fmt : Nat → String) (data : PrivateMsgData) (prev : List Message) :
    handleReceiveMessage u now fmt data prev =
      if dedupMatch data prev then prev
      else prev ++ [mkPrivateMessage u now fmt data] := rfl

theorem runDirectEvents_survivors (u : String) (now : Nat)
    (fmt : Nat → String) :
    ∀ events snapshot,
      runDirectEvents u now fmt events snapshot =
        snapshot ++ directSurvivorsTail u now fmt events snapshot
  | [], snapshot => by
    simp [runDirectEvents, directSurvivorsTail]
  | d :: ds, snapshot => by
    have ih1 := runDirectEvents_survivors u now fmt ds snapshot
    have ih2 := runDirectEvents_survivors u now fmt ds
      (snapshot ++ [mkPrivateMessage u now fmt d])
    simp only [runDirectEvents, List.foldl_cons] at ih1 ih2 ⊢
    rw [handleReceiveMessage_eq, directSurvivorsTail]
    by_cases h : dedupMatch d snapshot = true
    · rw [if_pos h, if_pos h]
      exact ih1
    · rw [if_neg h, if_neg h, ih2, List.append_assoc,
        List.singleton_append]

/-- Counterexample to C2 as stated: a fetch whose two entries arrive
with `createdAt` 2 then 1 is rendered in fetch order, not sorted
ascending by `createdAt` — the effect performs no sort. -/
theorem c2_initial_not_sorted :
    chatInitialEffect "a@x" sampleFmt [rawP2, rawP1] [] ≠
      specInitialSequence "a@x" sampleFmt [rawP2, rawP1] := by decide

/-- C2 amended: a non-empty fetch is rendered as the normalized entries
in fetch order (no sort); when the fetch honors its ascending-by-
`createdAt` contract the initial sequence is ascending; the historical
snapshot stays a strict prefix under any sequence of live events; in
the room view the live messages follow in exactly arrival order, and in
the direct view the tail is exactly the messages built from the events
surviving dedup, in arrival order (`directSurvivorsTail`). -/
theorem c2_history_then_live :
    (∀ currentUserEmail fmt initial prev, initial ≠ [] →
        chatInitialEffect currentUserEmail fmt initial prev =
          transformInitialMessages currentUserEmail fmt initial) ∧
      (∀ currentUserEmail fmt initial, ascByCreatedAtRaw initial = true →
        ascByCreatedAt
          (transformInitialMessages currentUserEmail fmt initial) = true) ∧
      (∀ currentUserEmail now fmt events snapshot,
        (runDirectEvents currentUserEmail now fmt events snapshot).take
          snapshot.length = snapshot) ∧
      (∀ username now events snapshot,
        runRoomEvents username now events snapshot =
          snapshot ++ events.map (mkRoomMessage username now)) ∧
      ∀ currentUserEmail now fmt events snapshot,
        runDirectEvents currentUserEmail now fmt events snapshot =
          snapshot ++
            directSurvivorsTail currentUserEmail now fmt events snapshot := by
  refine ⟨fun u fmt initial prev h => ?_, fun u fmt initial h => ?_,
    fun u now fmt events snapshot => ?_,
    fun username now events snapshot => runRoomEvents_eq _ _ _ _,
    fun u now fmt events snapshot =>
      runDirectEvents_survivors u now fmt events snapshot⟩
  · simp [chatInitialEffect, List.length_pos.mpr h]
  · exact transform_asc u fmt initial h
  · obtain ⟨t, ht⟩ := runDirectEvents_extends u now fmt events snapshot
    rw [ht, List.take_left]

/-- Witness for C2 amended at a concrete two-entry ascending fetch and
a one-event live stream. -/
theorem c2_history_then_live_witness :
    chatInitialEffect "a@x" sampleFmt [rawP1, rawP2] [] =
        transformInitialMessages "a@x" sampleFmt [rawP1, rawP2] ∧
      ascByCreatedAt
        (transformInitialMessages "a@x" sampleFmt [rawP1, rawP2]) = true ∧
      (runDirectEvents "a@x" 7 sampleFmt [privData0]
          (transformInitialMessages "a@x" sampleFmt [rawP1, rawP2])).take
        (transformInitialMessages "a@x" sampleFmt [rawP1, rawP2]).length =
        transformInitialMessages "a@x" sampleFmt [rawP1, rawP2] ∧
      runRoomEvents "u" 5 [roomData0] [roomMsg0] =
        [roomMsg0] ++ [roomData0].map (mkRoomMessage "u" 5) ∧
      runDirectEvents "a@x" 7 sampleFmt [privData0] [privMsg0] =
        [privMsg0] ++
          directSurvivorsTail "a@x" 7 sampleFmt [privData0] [privMsg0] :=
  ⟨c2_history_then_live.1 "a@x" sampleFmt [rawP1, rawP2] []
      (List.cons_ne_nil _ _),
    c2_history_then_live.2.1 "a@x" sampleFmt [rawP1, rawP2] (by decide),
    c2_history_then_live.2.2.1 "a@x" 7 sampleFmt [privData0]
      (transformInitialMessages "a@x" sampleFmt [rawP1, rawP2]),
    c2_history_then_live.2.2.2.1 "u" 5 [roomData0] [roomMsg0],
    c2_history_then_live.2.2.2.2 "a@x" 7 sampleFmt [privData0]
      [privMsg0]⟩

/-- Counterexample to C4 as stated: a 501-character room input is not
rejected — the room send path emits an outbound event for it. -/
theorem c4_room_length_unchecked :
    longText.length > 500 ∧
      (handleSendMessage true "r1" "Neural Hub" "bob" sampleFmt 0
        longText).1 ≠ none := by
  constructor
  · show (List.replicate 501 'a').length > 500
    rw [List.length_replicate]
    decide
  · decide

/-- C4 amended: both send handlers are a no-op (no event, input
untouched) exactly when the trimmed text is empty, no connection handle
exists, or the channel id is empty; neither consults the 500-unit
length bound — in the direct view over-length text is kept out by the
input change handler refusing values longer than 500, while the room
path has no length bound at all. -/
theorem c4_send_guards :
    (∀ sock cid pe pu u un fmt now msg,
        (handleOnSubmit sock cid pe pu u un fmt now msg).1 = none ↔
          (jsTrim msg = "" ∨ sock = false ∨ cid = "")) ∧
      (∀ sock id rn un fmt now msg,
        (handleSendMessage sock id rn un fmt now msg).1 = none ↔
          (jsTrim msg = "" ∨ sock = false ∨ id = "")) ∧
      (∀ sock cid pe pu u un fmt now msg,
        (handleOnSubmit sock cid pe pu u un fmt now msg).1 = none →
          (handleOnSubmit sock cid pe pu u un fmt now msg).2 = msg) ∧
      (∀ sock id rn un fmt now msg,
        (handleSendMessage sock id rn un fmt now msg).1 = none →
          (handleSendMessage sock id rn un fmt now msg).2 = msg) ∧
      ∀ value cur, value.length > 500 → chatComposerChange value cur = cur := by
  refine ⟨fun sock cid pe pu u un fmt now msg => ?_,
    fun sock id rn un fmt now msg => ?_,
    fun sock cid pe pu u un fmt now msg => ?_,
    fun sock id rn un fmt now msg => ?_,
    fun value cur h => ?_⟩
  · rw [handleOnSubmit]
    split
    next h => simp [h.1, h.2.1, h.2.2]
    next h =>
      simp only [not_and_or, not_not, Bool.not_eq_true] at h
      simp [h]
  · rw [handleSendMessage]
    split
    next h => simp [h.1, h.2.1, h.2.2]
    next h =>
      simp only [not_and_or, not_not, Bool.not_eq_true] at h
      simp [h]
  · rw [handleOnSubmit]
    split
    next => simp
    next => exact fun _ => rfl
  · rw [handleSendMessage]
    split
    next => simp
    next => exact fun _ => rfl
  · rw [chatComposerChange, if_neg (by omega)]

/-- Witness for C4 amended: the direct input refuses a 501-character
value; a no-connection direct submit keeps the input; a whitespace room
submit emits nothing. -/
theorem c4_send_guards_witness :
    chatComposerChange longText "x" = "x" ∧
      (handleOnSubmit false "c" "b@x" "b" "a@x" "a" sampleFmt 0 "hi").2 =
        "hi" ∧
      (handleSendMessage true "r" "R" "u" sampleFmt 0 "  ").1 = none :=
  ⟨c4_send_guards.2.2.2.2 longText "x"
      (by show (List.replicate 501 'a').length > 500
          rw [List.length_replicate]; decide),
    c4_send_guards.2.2.1 false "c" "b@x" "b" "a@x" "a" sampleFmt 0 "hi"
      (by decide),
    (c4_send_guards.2.1 true "r" "R" "u" sampleFmt 0 "  ").mpr
      (Or.inl (by decide))⟩

/-- Counterexample to C5 as stated: the `connect` and `disconnect`
handlers are registered during open, yet after the effect cleanup both
are still registered in both views — the cleanup does not unregister
every listener registered during open. -/
theorem c5_transport_listeners_remain :
    "connect" ∈ openDirectConn.listeners ∧
      "disconnect" ∈ openDirectConn.listeners ∧
      "connect" ∈ openRoomConn.listeners ∧
      "disconnect" ∈ openRoomConn.listeners ∧
      (cleanupDirect "a@x_b@x" "a@x" openDirectConn).1.listeners =
        ["connect", "disconnect"] ∧
      (cleanupRoom "r" "u" openRoomConn).1.listeners =
        ["connect", "disconnect"] := by decide

/-- C5 amended: teardown of either channel view emits the leave event
carrying the channel id and local identity, unregisters the channel
data listeners registered at open (but leaves the `connect` and
`disconnect` transport listeners registered), marks the transport
closed, and afterwards no inbound channel event (message, typing,
system notice, presence) changes the component state. -/
theorem c5_teardown_data_only (cid currentUserEmail id username : String)
    (hd : cid ≠ "") (hr : id ≠ "") :
    (cleanupDirect cid currentUserEmail openDirectConn).2 =
        [OutEvent.leavePrivateChat cid currentUserEmail] ∧
      (cleanupDirect cid currentUserEmail openDirectConn).1.listeners =
        ["connect", "disconnect"] ∧
      (cleanupDirect cid currentUserEmail openDirectConn).1.connected =
        false ∧
      (∀ now fmt ev st,
        deliverDirect currentUserEmail now fmt
          (cleanupDirect cid currentUserEmail openDirectConn).1 ev st =
          st) ∧
      (cleanupRoom id username openRoomConn).2 =
        [OutEvent.leaveRoom id username] ∧
      (cleanupRoom id username openRoomConn).1.listeners =
        ["connect", "disconnect"] ∧
      (cleanupRoom id username openRoomConn).1.connected = false ∧
      ∀ roomName now ev st,
        deliverRoom id roomName username now
          (cleanupRoom id username openRoomConn).1 ev st = st := by
  refine ⟨?_, rfl, rfl, fun now fmt ev st => ?_, ?_, rfl, rfl,
    fun roomName now ev st => ?_⟩
  · simp [cleanupDirect, hd]
  · cases ev <;> rfl
  · simp [cleanupRoom, hr]
  · cases ev <;> rfl

/-- Witness for C5 amended at the concrete channel ids `"a@x_b@x"` and
`"r"`. -/
theorem c5_teardown_data_only_witness :
    (cleanupDirect "a@x_b@x" "a@x" openDirectConn).2 =
        [OutEvent.leavePrivateChat "a@x_b@x" "a@x"] ∧
      deliverRoom "r" "R" "u" 5 (cleanupRoom "r" "u" openRoomConn).1
        (RoomInbound.usersUpdate ["a"])
        { messages := [], onlineUsers := ["a", "b"] } =
        { messages := [], onlineUsers := ["a", "b"] } :=
  ⟨(c5_teardown_data_only "a@x_b@x" "a@x" "r" "u" (by decide)
      (by decide)).1,
    (c5_teardown_data_only "a@x_b@x" "a@x" "r" "u" (by decide)
      (by decide)).2.2.2.2.2.2.2 "R" 5 (RoomInbound.usersUpdate ["a"])
      { messages := [], onlineUsers := ["a", "b"] }⟩

theorem runTyping_armed :
    ∀ ts t n, tightBurst t ts = true →
      (runTyping { typingTimeout := some (t + 1000), stopsEmitted := n }
        ts).stopsEmitted = n + 1
  | [], _, _, _ => rfl
  | u :: rest, t, n, h => by
    rw [tightBurst, Bool.and_eq_true, Bool.and_eq_true] at h
    obtain ⟨⟨_, h2⟩, h3⟩ := h
    rw [decide_eq_true_iff] at h2
    rw [runTyping]
    have hfire : fireIfDue u
        { typingTimeout := some (t + 1000), stopsEmitted := n } =
        { typingTimeout := some (t + 1000), stopsEmitted := n } := by
      simp [fireIfDue]
      omega
    rw [hfire]
    exact runTyping_armed rest u n h3

/-- C6: a burst of keystrokes, each arriving less than 1000 units after
the previous one, re-arms the timer each time and yields exactly one
`typing_stop` emission after the last keystroke. -/
theorem c6_debounce_single_stop (t : Nat) (ts : List Nat)
    (h : tightBurst t ts = true) :
    (runTyping { typingTimeout := none, stopsEmitted := 0 }
      (t :: ts)).stopsEmitted = 1 := by
  rw [runTyping]
  exact runTyping_armed ts t 0 h

/-- Witness for C6: four keystrokes at 0, 500, 999 and 1500 produce one
stop emission. -/
theorem c6_debounce_single_stop_witness :
    tightBurst 0 [500, 999, 1500] = true ∧
      (runTyping { typingTimeout := none, stopsEmitted := 0 }
        (0 :: [500, 999, 1500])).stopsEmitted = 1 :=
  ⟨by decide, c6_debounce_single_stop 0 [500, 999, 1500] (by decide)⟩

theorem partnerUsernameFromParam_ne_empty :
    ∀ idParam, partnerUsernameFromParam idParam ≠ ""
  | none => by decide
  | some s => by
    rw [partnerUsernameFromParam]
    split
    · decide
    · assumption

theorem append_underscore_ne_empty (a b : String) : a ++ "_" ++ b ≠ "" := by
  intro h
  have h2 := congrArg String.data h
  simp at h2

theorem chatId_ne_empty (a b : String) : chatId a b ≠ "" := by
  rw [chatId]
  split
  · exact append_underscore_ne_empty a b
  · exact append_underscore_ne_empty b a

/-- Counterexample to C7 as stated: with no partner identity the view
does render the "no chat selected" state, but the socket effect still
opens a connection, since the derived chat id `"_me@x"` is non-empty. -/
theorem c7_connection_despite_empty_partner :
    partnerEmailFromParam none = "" ∧
      chatRendersNoChatSelected (partnerEmailFromParam none)
        (partnerUsernameFromParam none) = true ∧
      chatSocketEffectOpens (chatId "me@x" (partnerEmailFromParam none))
        "me@x" true = true := by decide

/-- C7 amended: with an empty partner identity the view surfaces the
"no chat selected" state (so no message form is rendered and no
exchange is attempted), but the socket effect guard tests the derived
chat id — which is never empty — so a connection is still opened
exactly when the local identity is non-empty and authenticated. -/
theorem c7_unaddressable_channel (currentUserEmail : String)
    (idParam : Option String) (isAuthenticated : Bool) :
    (chatRendersNoChatSelected (partnerEmailFromParam idParam)
        (partnerUsernameFromParam idParam) = true ↔
      partnerEmailFromParam idParam = "") ∧
      chatId currentUserEmail (partnerEmailFromParam idParam) ≠ "" ∧
      (chatSocketEffectOpens
          (chatId currentUserEmail (partnerEmailFromParam idParam))
          currentUserEmail isAuthenticated = true ↔
        (currentUserEmail ≠ "" ∧ isAuthenticated = true)) := by
  refine ⟨?_, chatId_ne_empty _ _, ?_⟩
  · simp [chatRendersNoChatSelected,
      partnerUsernameFromParam_ne_empty idParam]
  · simp [chatSocketEffectOpens, chatId_ne_empty currentUserEmail
      (partnerEmailFromParam idParam)]

/-- Witness for C7 amended at a concrete local identity and absent
route parameter. -/
theorem c7_unaddressable_channel_witness :
    chatId "me@x" (partnerEmailFromParam none) ≠ "" :=
  (c7_unaddressable_channel "me@x" none true).2.1

/-- Witness for C10 at a concrete room. -/
theorem c10_room_welcome_witness :
    roomInitialEffect "r" "R" "u" 0 sampleFmt [] [] ≠ [] :=
  c10_room_welcome.2 "r" "R" "u" 0 sampleFmt [] []

end Glimmer
